import Mathlib

/-!
Formal model of the minimal-llm-council deliberation pipeline.

The Python backend is shallowly embedded: pure computation is translated to
Lean functions; network calls (OpenRouter replies), clock readings, and UUID
generation are passed in as explicit oracle parameters; Python exceptions are
modelled with `Except`; Python floats are modelled with `ℚ`; Python dicts are
modelled with insertion-ordered association lists.

Source files embedded:
  backend/schemas/decision.py  (data model)
  backend/openrouter.py        (query_models_parallel, query_model_json)
  backend/agents/generator.py  (stage1_generate_answers)
  backend/judges/evaluator.py  (stage2_judge_evaluation)
  backend/agents/synthesizer.py (stage3_synthesize_decision)
  backend/safety/gate.py       (safety_check)
  backend/audit/logger.py      (log_decision, get_statistics)
  backend/main.py              (deliberate endpoint)
-/

namespace LlmCouncil

/-! ## JSON values

Models the values produced by Python `json.loads` and the literal dicts the
code builds.  Python dicts are insertion-ordered association lists with
distinct keys. -/

inductive Json where
  | null
  | bool (b : Bool)
  | num (q : ℚ)
  | str (s : String)
  | arr (elems : List Json)
  | obj (fields : List (String × Json))
deriving Repr

/-- Python dict insert: overwrite in place if the key exists, else append. -/
def dictInsert {α : Type} (d : List (String × α)) (k : String) (v : α) :
    List (String × α) :=
  if d.any (fun p => p.1 == k) then
    d.map (fun p => if p.1 == k then (k, v) else p)
  else
    d ++ [(k, v)]

/-- Keys of a Python dict, in insertion order (what `for x in d` iterates). -/
def dictKeys {α : Type} (d : List (String × α)) : List String :=
  d.map Prod.fst

/-- Python `d[k]` / `d.get(k)` lookup. -/
def Json.getField : Json → String → Option Json
  | .obj fields, k => (fields.find? (fun p => p.1 == k)).map Prod.snd
  | _, _ => none

/-- Python `isinstance(j, dict) and k in j`. -/
def Json.hasKey (j : Json) (k : String) : Bool :=
  (j.getField k).isSome

/-- Python truthiness of `d.get(k)` (None / missing key is falsy). -/
def jsonTruthy : Option Json → Bool
  | none => false
  | some .null => false
  | some (.bool b) => b
  | some (.num q) => decide (q ≠ 0)
  | some (.str s) => s ≠ ""
  | some (.arr l) => !l.isEmpty
  | some (.obj l) => !l.isEmpty

/-! ## A JSON parser modelling Python `json.loads`

Strict JSON: objects, arrays, double-quoted strings with escapes, numbers,
`true`/`false`/`null`; the whole input must be consumed (Python raises
`Extra data` otherwise).  Recursion is fuelled by input length. -/

def jsonWs (c : Char) : Bool :=
  c = ' ' || c = '\t' || c = '\n' || c = '\r'

def skipWs : List Char → List Char
  | [] => []
  | c :: cs => if jsonWs c then skipWs cs else c :: cs

def hexVal (c : Char) : Option Nat :=
  if '0' ≤ c ∧ c ≤ '9' then some (c.toNat - 48)
  else if 'a' ≤ c ∧ c ≤ 'f' then some (c.toNat - 87)
  else if 'A' ≤ c ∧ c ≤ 'F' then some (c.toNat - 55)
  else none

/-- One escape sequence after a backslash inside a JSON string. -/
def parseEscape : List Char → Option (Char × List Char)
  | '"' :: rest => some ('"', rest)
  | '\\' :: rest => some ('\\', rest)
  | '/' :: rest => some ('/', rest)
  | 'b' :: rest => some (Char.ofNat 8, rest)
  | 'f' :: rest => some (Char.ofNat 12, rest)
  | 'n' :: rest => some ('\n', rest)
  | 'r' :: rest => some ('\r', rest)
  | 't' :: rest => some ('\t', rest)
  | 'u' :: a :: b :: c :: d :: rest =>
    match hexVal a, hexVal b, hexVal c, hexVal d with
    | some ha, some hb, some hc, some hd =>
      some (Char.ofNat (((ha * 16 + hb) * 16 + hc) * 16 + hd), rest)
    | _, _, _, _ => none
  | _ => none

/-- Characters of a JSON string after the opening quote. -/
def parseStringChars : Nat → List Char → Option (List Char × List Char)
  | 0, _ => none
  | _, [] => none
  | _ + 1, '"' :: rest => some ([], rest)
  | fuel + 1, '\\' :: rest =>
    match parseEscape rest with
    | some (c, rest2) =>
      (parseStringChars fuel rest2).map (fun p => (c :: p.1, p.2))
    | none => none
  | fuel + 1, c :: rest =>
    if c.toNat < 32 then none
    else (parseStringChars fuel rest).map (fun p => (c :: p.1, p.2))

def digitsToNat (ds : List Char) : Nat :=
  ds.foldl (fun n c => 10 * n + (c.toNat - 48)) 0

/-- A Python float literal of the source, as an exact rational.  Built with
`mkRat` so that the value computes definitionally. -/
def pyFloat (num : Int) (den : Nat) : ℚ :=
  mkRat num den

/-- A JSON number (integer part, optional fraction, optional exponent),
returned as an exact rational.  The value is assembled from integer
numerator and denominator and one final `mkRat`. -/
def parseNumber (s : List Char) : Option (ℚ × List Char) :=
  let (neg, s1) : Bool × List Char :=
    match s with
    | '-' :: rest => (true, rest)
    | _ => (false, s)
  let intDigits := s1.takeWhile Char.isDigit
  let s2 := s1.dropWhile Char.isDigit
  if intDigits.isEmpty then none
  else
    let withFrac : Option (Nat × Nat × List Char) :=
      match s2 with
      | '.' :: rest =>
        let fracDigits := rest.takeWhile Char.isDigit
        if fracDigits.isEmpty then none
        else some (digitsToNat (intDigits ++ fracDigits),
                   10 ^ fracDigits.length, rest.dropWhile Char.isDigit)
      | _ => some (digitsToNat intDigits, 1, s2)
    match withFrac with
    | none => none
    | some (n, d, s3) =>
      let withExp : Option (Nat × Nat × List Char) :=
        match s3 with
        | 'e' :: rest | 'E' :: rest =>
          let (eneg, r1) : Bool × List Char :=
            match rest with
            | '-' :: r => (true, r)
            | '+' :: r => (false, r)
            | _ => (false, rest)
          let expDigits := r1.takeWhile Char.isDigit
          if expDigits.isEmpty then none
          else
            let e := digitsToNat expDigits
            some (if eneg then (n, d * 10 ^ e, r1.dropWhile Char.isDigit)
                  else (n * 10 ^ e, d, r1.dropWhile Char.isDigit))
        | _ => some (n, d, s3)
      match withExp with
      | none => none
      | some (n2, d2, s4) =>
        some (mkRat (if neg then -(n2 : Int) else (n2 : Int)) d2, s4)

mutual

def parseValue : Nat → List Char → Option (Json × List Char)
  | 0, _ => none
  | fuel + 1, s =>
    match skipWs s with
    | 't' :: 'r' :: 'u' :: 'e' :: rest => some (.bool true, rest)
    | 'f' :: 'a' :: 'l' :: 's' :: 'e' :: rest => some (.bool false, rest)
    | 'n' :: 'u' :: 'l' :: 'l' :: rest => some (.null, rest)
    | '"' :: rest =>
      (parseStringChars (fuel + 1) rest).map (fun p => (.str (String.mk p.1), p.2))
    | '[' :: rest =>
      match skipWs rest with
      | ']' :: rest2 => some (.arr [], rest2)
      | rest2 => (parseElems fuel rest2).map (fun p => (.arr p.1, p.2))
    | '{' :: rest =>
      match skipWs rest with
      | '}' :: rest2 => some (.obj [], rest2)
      | rest2 =>
        (parseMembers fuel rest2).map
          (fun p => (.obj (p.1.foldl (fun d kv => dictInsert d kv.1 kv.2) []), p.2))
    | s1 => (parseNumber s1).map (fun p => (.num p.1, p.2))

def parseElems : Nat → List Char → Option (List Json × List Char)
  | 0, _ => none
  | fuel + 1, s =>
    match parseValue fuel s with
    | none => none
    | some (j, rest) =>
      match skipWs rest with
      | ',' :: rest2 => (parseElems fuel rest2).map (fun p => (j :: p.1, p.2))
      | ']' :: rest2 => some ([j], rest2)
      | _ => none

def parseMembers : Nat → List Char → Option (List (String × Json) × List Char)
  | 0, _ => none
  | fuel + 1, s =>
    match skipWs s with
    | '"' :: rest =>
      match parseStringChars (fuel + 1) rest with
      | none => none
      | some (key, rest2) =>
        match skipWs rest2 with
        | ':' :: rest3 =>
          match parseValue fuel rest3 with
          | none => none
          | some (j, rest4) =>
            match skipWs rest4 with
            | ',' :: rest5 =>
              (parseMembers fuel rest5).map
                (fun p => ((String.mk key, j) :: p.1, p.2))
            | '}' :: rest5 => some ([(String.mk key, j)], rest5)
            | _ => none
        | _ => none
    | _ => none

end

/-- Python `json.loads`: parse the whole string or fail. -/
def parseJson (s : String) : Option Json :=
  match parseValue (2 * s.length + 8) s.data with
  | some (j, rest) => if skipWs rest = [] then some j else none
  | none => none

/-! ## Python exceptions

The exception classes that can cross a function boundary in the embedded
code.  `ValidationError` raised by pydantic is a `ValueError` subclass. -/

inductive PyError where
  | valueError (msg : String)
  | indexError (msg : String)
  | integrityError (msg : String)
deriving Repr, DecidableEq

def pyErrStr : PyError → String
  | .valueError msg => msg
  | .indexError msg => msg
  | .integrityError msg => msg

/-! ## Data model (backend/schemas/decision.py) -/

structure Citation where
  source : String
  excerpt : String
  confidence : ℚ
deriving Repr, DecidableEq

structure Risk where
  category : String
  severity : String
  description : String
deriving Repr, DecidableEq

structure AgentResponse where
  agent_id : String
  model : String
  response : String
  timestamp : Nat
deriving Repr, DecidableEq

structure JudgeEvaluation where
  judge_id : String
  model : String
  rankings : List String
  scores : List (String × List (String × ℚ))
  rationale : String
deriving Repr, DecidableEq

structure DecisionObject where
  question : String
  final_answer : String
  confidence : ℚ
  agent_responses : List AgentResponse
  judge_evaluations : List JudgeEvaluation
  risks : List Risk
  citations : List Citation
  timestamp : Nat
  audit_id : String
  processing_time_seconds : ℚ
deriving Repr, DecidableEq

/-! ## Safety gate (backend/safety/gate.py)

The regex alternations of UNSAFE_PATTERNS are embedded as word lists: each
rule fires when one of its words occurs in the text, case-insensitively, with
a word boundary on both sides, exactly like the source patterns
`\b(w1|w2|...)\b` under re.IGNORECASE. -/

def UNSAFE_PATTERNS : List (List String × String) :=
  [ (["kill", "murder", "suicide", "harm yourself"], "violence"),
    (["illegal", "hack", "crack", "pirate"], "illegal_activity"),
    (["racist", "sexist", "discriminat"], "discrimination") ]

def MIN_CONFIDENCE : ℚ := pyFloat 1 2

/-- Regex `\w`: letters, digits and underscore. -/
def isWordChar (c : Char) : Bool :=
  c.isAlphanum || c = '_'

def lowerChars (s : String) : List Char :=
  s.data.map Char.toLower

/-- Match the literal word at the front of the text, returning the rest. -/
def matchChars : List Char → List Char → Option (List Char)
  | [], rest => some rest
  | _ :: _, [] => none
  | w :: ws, c :: cs => if w = c then matchChars ws cs else none

/-- Regex `\b` before the match: start of text or a non-word character. -/
def boundaryBefore : Option Char → Bool
  | none => true
  | some c => !isWordChar c

/-- Regex `\b` after the match: end of text or a non-word character. -/
def boundaryAfter : List Char → Bool
  | [] => true
  | c :: _ => !isWordChar c

/-- Does the (nonempty, lowercase) word match at this position with word
boundaries on both sides? -/
def wordMatchesHere (w : List Char) (prev : Option Char) (s : List Char) : Bool :=
  boundaryBefore prev &&
    (match matchChars w s with
     | some rest => boundaryAfter rest
     | none => false)

def wordSearchAux (w : List Char) (prev : Option Char) : List Char → Bool
  | [] => false
  | c :: cs => wordMatchesHere w prev (c :: cs) || wordSearchAux w (some c) cs

/-- `re.search(r'\b' + word + r'\b', text, re.IGNORECASE)` for a literal word. -/
def wordSearch (word : String) (text : String) : Bool :=
  wordSearchAux (lowerChars word) none (lowerChars text)

/-- One alternation rule of UNSAFE_PATTERNS fires if any of its words occurs. -/
def patternMatches (words : List String) (text : String) : Bool :=
  words.any (fun w => wordSearch w text)

/-- The heterogeneous violation dicts appended by checks 1 and 3. -/
inductive Violation where
  | pattern (vtype : String) (reason : String)
  | highRisk (count : Nat) (descriptions : List String)
deriving Repr, DecidableEq

/-- The heterogeneous warning dicts appended by checks 2 and 4.  The source
interpolates the numeric values into the reason text; the numbers are kept
as fields here. -/
inductive Warning where
  | lowConfidence (value : ℚ) (threshold : ℚ) (reason : String)
  | judgeDisagreement (reason : String) (judge0Top : String) (judge1Top : String)
deriving Repr, DecidableEq

structure SafetyResult where
  passed : Bool
  violations : List Violation
  warnings : List Warning
  confidence : ℚ
deriving Repr, DecidableEq

/-- Check 4 of the gate: with at least two judge evaluations the source reads
`rankings[0]` of the first two; an empty rankings list there raises an
IndexError (modelled by `none`).  Otherwise it returns the (possibly empty)
list of disagreement warnings. -/
def check4 : List JudgeEvaluation → Option (List Warning)
  | e0 :: e1 :: _ =>
    match e0.rankings, e1.rankings with
    | r0 :: _, r1 :: _ =>
      some (if r0 ≠ r1 then
        [Warning.judgeDisagreement "Judges disagreed on best response" r0 r1]
      else [])
    | _, _ => none
  | _ => some []

/-- backend/safety/gate.py `safety_check`.  Returns `none` exactly when the
source raises, which only check 4 can do. -/
def safety_check (decision : DecisionObject) : Option SafetyResult :=
  -- Check 1: pattern matching for unsafe content
  let violations1 := UNSAFE_PATTERNS.filterMap (fun pc =>
    if patternMatches pc.1 decision.final_answer then
      some (Violation.pattern pc.2 ("Detected unsafe pattern: " ++ pc.2))
    else none)
  -- Check 2: confidence threshold (warning, never a violation)
  let warnings1 : List Warning :=
    if decision.confidence < MIN_CONFIDENCE then
      [Warning.lowConfidence decision.confidence MIN_CONFIDENCE
        "Confidence below threshold"]
    else []
  -- Check 3: high-severity risks
  let high_risks := decision.risks.filter (fun r => r.severity == "high")
  let violations2 : List Violation :=
    if high_risks.isEmpty then []
    else [Violation.highRisk high_risks.length (high_risks.map Risk.description)]
  let violations := violations1 ++ violations2
  -- Check 4: judge disagreement over the top-ranked agent
  match check4 decision.judge_evaluations with
  | none => none
  | some warnings2 =>
    some ⟨violations.isEmpty, violations, warnings1 ++ warnings2,
          decision.confidence⟩

/-! ## Audit store (backend/audit/logger.py)

The sqlite table is modelled as an in-order list of rows; the serialized
JSON columns keep their structured values. -/

structure AuditRecord where
  audit_id : String
  timestamp : Nat
  question : String
  final_answer : String
  confidence : ℚ
  agent_responses : List AgentResponse
  judge_evaluations : List JudgeEvaluation
  risks : List Risk
  citations : List Citation
  safety_passed : Bool
  safety_violations : List Violation
  safety_warnings : List Warning
  processing_time_seconds : ℚ
deriving Repr, DecidableEq

/-- The row inserted by `AuditLogger.log_decision`. -/
def auditRecordOf (decision : DecisionObject) (safety_result : SafetyResult) :
    AuditRecord :=
  ⟨decision.audit_id, decision.timestamp, decision.question,
   decision.final_answer, decision.confidence, decision.agent_responses,
   decision.judge_evaluations, decision.risks, decision.citations,
   safety_result.passed, safety_result.violations, safety_result.warnings,
   decision.processing_time_seconds⟩

/-- `AuditLogger.log_decision`: one INSERT keyed by the primary key
`audit_id`; a duplicate key raises sqlite3.IntegrityError and leaves the
table unchanged.  Returns the new table and the audit id. -/
def log_decision (db : List AuditRecord) (decision : DecisionObject)
    (safety_result : SafetyResult) :
    Except PyError (List AuditRecord × String) :=
  if db.any (fun rec => rec.audit_id == decision.audit_id) then
    .error (.integrityError "UNIQUE constraint failed: audit_log.audit_id")
  else
    .ok (db ++ [auditRecordOf decision safety_result], decision.audit_id)

/-- Round to `d` decimal places (Python `round` on the stored floats; the
half-even tie rule of floats is inessential here and half-up is used). -/
def roundQ (q : ℚ) (d : Nat) : ℚ :=
  (⌊q * (10 : ℚ) ^ d + 1 / 2⌋ : ℚ) / (10 : ℚ) ^ d

/-- `AuditLogger.get_statistics`: the SELECT computes COUNT, AVG(confidence),
the two CASE sums and AVG(processing_time_seconds); with zero rows the code
takes the explicit zeroed-dict branch.  The returned dict is kept as a Json
object because its key set differs between the two branches. -/
def get_statistics (db : List AuditRecord) : Json :=
  let total := db.length
  if total = 0 then
    Json.obj [("total_decisions", .num 0), ("avg_confidence", .num 0),
              ("pass_rate", .num 0), ("avg_processing_time", .num 0)]
  else
    let passed := (db.filter (fun r => r.safety_passed)).length
    let rejected := (db.filter (fun r => !r.safety_passed)).length
    let avg_conf := (db.map AuditRecord.confidence).sum / (total : ℚ)
    let avg_time := (db.map AuditRecord.processing_time_seconds).sum / (total : ℚ)
    Json.obj [("total_decisions", .num total),
              ("passed_decisions", .num passed),
              ("rejected_decisions", .num rejected),
              ("pass_rate", .num ((passed : ℚ) / (total : ℚ))),
              ("avg_confidence", .num (roundQ avg_conf 3)),
              ("avg_processing_time_seconds", .num (roundQ avg_time 2))]

/-! ## Model client (backend/openrouter.py)

Network outcomes are oracle values: `query_model` either fails after all its
retries (`none`) or yields a reply dict whose `content` entry is an arbitrary
JSON value (`Json.null` models a reply with None content, `Json.str`
a text reply). -/

def GENERATOR_MODELS : List String :=
  ["meta-llama/llama-3.2-3b-instruct:free",
   "google/gemini-2.0-flash-exp:free",
   "mistralai/mistral-7b-instruct:free"]

def JUDGE_MODELS : List String :=
  ["meta-llama/llama-3.2-3b-instruct:free",
   "google/gemini-2.0-flash-exp:free"]

def CHAIRMAN_MODEL : String := "google/gemini-2.0-flash-exp:free"

/-- `query_models_parallel`: one `query_model` task per model, results
collected into a dict keyed by model identifier. -/
def query_models_parallel (models : List String)
    (messages : List (String × String))
    (oracle : String → List (String × String) → Option (Option String)) :
    List (String × Option (Option String)) :=
  models.foldl (fun d model => dictInsert d model (oracle model messages)) []

/-- Substring search (for `re.search` on a literal pattern with no groups). -/
def listContainsSub (needle : List Char) : List Char → Bool
  | [] => needle.isEmpty
  | c :: cs => (matchChars needle (c :: cs)).isSome || listContainsSub needle cs

def containsSubstr (needle text : String) : Bool :=
  listContainsSub needle.data text.data

def notBrace (c : Char) : Bool :=
  c ≠ '{' && c ≠ '}'

/-- Tail of a match of the source's object-extraction regex: after the
leading brace and its run of non-brace characters have been consumed, accept
iterated one-level-nested groups and the closing brace.  `acc` carries the
characters matched so far. -/
def braceLoop : Nat → List Char → List Char → Option (List Char)
  | 0, _, _ => none
  | _ + 1, acc, '}' :: _ => some (acc ++ ['}'])
  | fuel + 1, acc, '{' :: rest =>
    let inner := rest.takeWhile notBrace
    match rest.dropWhile notBrace with
    | '}' :: rest2 =>
      let t := rest2.takeWhile notBrace
      braceLoop fuel (acc ++ '{' :: (inner ++ '}' :: t)) (rest2.dropWhile notBrace)
    | _ => none
  | _, _, _ => none

/-- Match of the regex `\{[^{}]*(?:\{[^{}]*\}[^{}]*)*\}` at this position. -/
def matchBraceAt : List Char → Option (List Char)
  | '{' :: rest =>
    braceLoop (rest.length + 1) ('{' :: rest.takeWhile notBrace)
      (rest.dropWhile notBrace)
  | _ => none

/-- `re.search` for that regex: the leftmost match. -/
def findBraceMatch : List Char → Option (List Char)
  | [] => none
  | c :: cs =>
    match matchBraceAt (c :: cs) with
    | some m => some m
    | none => findBraceMatch cs

def FALLBACK_RANKINGS : List Json :=
  [.str "agent_0", .str "agent_1", .str "agent_2"]

/-- The fallback dict returned when the call produced no response or a
response with empty content. -/
def fullFallback (rationale : String) : Json :=
  .obj [("rankings", .arr FALLBACK_RANKINGS), ("scores", .obj []),
        ("rationale", .str rationale),
        ("final_answer", .str "Unable to generate synthesis due to API rate limits"),
        ("confidence", .num (pyFloat 3 10)), ("risks", .arr []),
        ("citations", .arr []), ("fallback", .bool true)]

/-- The shorter fallback dict of the unparseable-text and unexpected-type
branches. -/
def shortFallback (rationale : String) : Json :=
  .obj [("rankings", .arr FALLBACK_RANKINGS), ("scores", .obj []),
        ("rationale", .str rationale), ("fallback", .bool true)]

/-- `query_model_json`, given the underlying `query_model` outcome.

The code-block extraction step of the source is
`re.search(r'``````', content, re.DOTALL)` followed by
`json.loads(json_match.group(1))`: the pattern matches six literal backticks
and has NO capture group, so whenever an unparseable content string contains
six consecutive backticks, `group(1)` raises an IndexError that no handler
catches (only json.JSONDecodeError is caught). -/
def query_model_json (response : Option Json) : Except PyError Json :=
  match response with
  | none =>
    -- Handle None response (API error) - return fallback
    .ok (fullFallback "API error - using default ranking")
  | some content =>
    match content with
    | .null =>
      -- Handle None content - return fallback
      .ok (fullFallback "Empty response - using default ranking")
    | .obj fields =>
      -- If content is already a dict, return it
      .ok (.obj fields)
    | .str s =>
      -- Try direct JSON parse
      match parseJson s with
      | some j => .ok j
      | none =>
        -- Try extracting from markdown code blocks (the broken regex)
        if containsSubstr "``````" s then
          .error (.indexError "no such group")
        else
          -- Try finding any JSON object
          match findBraceMatch s.data with
          | some m =>
            match parseJson (String.mk m) with
            | some j => .ok j
            | none =>
              .ok (shortFallback
                ("Failed to parse JSON - text response: " ++ s.take 200))
          | none =>
            .ok (shortFallback
              ("Failed to parse JSON - text response: " ++ s.take 200))
    | _ =>
      -- Unexpected content type - return fallback (the source interpolates
      -- the Python type name into the rationale)
      .ok (shortFallback "Unexpected type - using default")

/-! ## Stage 1: generation (backend/agents/generator.py) -/

def GENERATOR_SYSTEM_PROMPT : String :=
  "You are an expert analyst providing a comprehensive answer.\n    Be accurate, cite reasoning, and acknowledge uncertainties."

/-- The `for i, (model, response) in enumerate(zip(...))` loop of
`stage1_generate_answers`. -/
def buildAgentResponses (now : Nat) (i : Nat) :
    List (String × String) → List AgentResponse
  | [] => []
  | (model, response) :: rest =>
    ⟨"agent_" ++ toString i, model, response, now⟩ ::
      buildAgentResponses now (i + 1) rest

/-- `stage1_generate_answers`.  NOTE: the source iterates
`zip(GENERATOR_MODELS, responses)` where `responses` is the DICT returned by
`query_models_parallel`; iterating a dict yields its keys, so the `response`
component of every pair is a model identifier, never the reply content. -/
def stage1_generate_answers (question : String)
    (oracle : String → List (String × String) → Option (Option String))
    (now : Nat) : List AgentResponse :=
  let messages := [("system", GENERATOR_SYSTEM_PROMPT), ("user", question)]
  let responses := query_models_parallel GENERATOR_MODELS messages oracle
  buildAgentResponses now 0 (GENERATOR_MODELS.zip (dictKeys responses))

/-! ## Pydantic field conversions

Lax-mode pydantic v2 validation for the field types the schemas use; a
`none` result models a ValidationError. -/

def asString : Json → Option String
  | .str s => some s
  | _ => none

def asNum : Json → Option ℚ
  | .num q => some q
  | _ => none

def asJsonArr : Json → Option (List Json)
  | .arr xs => some xs
  | _ => none

def asStringList (j : Json) : Option (List String) :=
  (asJsonArr j).bind (fun xs => xs.mapM asString)

def asScoreMap : Json → Option (List (String × ℚ))
  | .obj fields => fields.mapM (fun p => (asNum p.2).map (fun q => (p.1, q)))
  | _ => none

def asScores : Json → Option (List (String × List (String × ℚ)))
  | .obj fields => fields.mapM (fun p => (asScoreMap p.2).map (fun m => (p.1, m)))
  | _ => none

/-! ## Python `str()` of a parsed reply (used only inside rationale texts) -/

mutual

def pyStr : Json → String
  | .null => "None"
  | .bool true => "True"
  | .bool false => "False"
  | .num q => toString q
  | .str s => "\x27" ++ s ++ "\x27"
  | .arr xs => "[" ++ pyStrList xs ++ "]"
  | .obj fs => "\x7b" ++ pyStrFields fs ++ "\x7d"

def pyStrList : List Json → String
  | [] => ""
  | [x] => pyStr x
  | x :: xs => pyStr x ++ ", " ++ pyStrList xs

def pyStrFields : List (String × Json) → String
  | [] => ""
  | [(k, v)] => "\x27" ++ k ++ "\x27: " ++ pyStr v
  | (k, v) :: xs => "\x27" ++ k ++ "\x27: " ++ pyStr v ++ ", " ++ pyStrFields xs

end

/-! ## Stage 2: judge evaluation (backend/judges/evaluator.py) -/

def NEUTRAL_SCORES : List (String × ℚ) :=
  [("factual_accuracy", 5), ("completeness", 5), ("clarity", 5),
   ("safety", 5), ("citation_quality", 5)]

/-- `[f"agent_{j}" for j in range(n)]`. -/
def defaultRankings (n : Nat) : List String :=
  (List.range n).map (fun j => "agent_" ++ toString j)

/-- One iteration of the judge-processing loop.  The real-output branch is
taken whenever the reply is a dict with a `rankings` key (the fallback dicts
of `query_model_json` carry that key and therefore take it too); the default
branch builds the neutral evaluation; a pydantic ValidationError while
building the real evaluation falls to the minimal except-branch fallback
with EMPTY scores. -/
def stage2_processJudge (nAgents : Nat) (i : Nat) (model : String)
    (output : Json) : JudgeEvaluation :=
  if output.hasKey "rankings" then
    match asStringList ((output.getField "rankings").getD .null),
          asScores ((output.getField "scores").getD (.obj [])),
          asString ((output.getField "rationale").getD
            (.str "No rationale provided")) with
    | some rankings, some scores, some rationale =>
      ⟨"judge_" ++ toString i, model, rankings, scores, rationale⟩
    | _, _, _ =>
      ⟨"judge_" ++ toString i, model, defaultRankings nAgents, [],
       "Error processing judge response: validation error"⟩
  else
    ⟨"judge_" ++ toString i, model, defaultRankings nAgents,
     (List.range nAgents).map (fun j => ("agent_" ++ toString j, NEUTRAL_SCORES)),
     "Fallback ranking due to invalid JSON response: " ++ (pyStr output).take 100⟩

/-- The `for i, (model, output) in enumerate(zip(...))` loop. -/
def stage2_loop (nAgents : Nat) (i : Nat) :
    List (String × Json) → List JudgeEvaluation
  | [] => []
  | (model, output) :: rest =>
    stage2_processJudge nAgents i model output ::
      stage2_loop nAgents (i + 1) rest

/-- `stage2_judge_evaluation`, given the gathered `query_model_json` results
(`judge_outputs` in the source). -/
def stage2_judge_evaluation (agent_responses : List AgentResponse)
    (judge_outputs : List Json) : List JudgeEvaluation :=
  stage2_loop agent_responses.length 0 (JUDGE_MODELS.zip judge_outputs)

/-! ## Stage 3: synthesis (backend/agents/synthesizer.py) -/

/-- `Risk(**r)`: pydantic ignores extra keys and requires the three string
fields. -/
def asRisk (j : Json) : Option Risk :=
  match asString ((j.getField "category").getD .null),
        asString ((j.getField "severity").getD .null),
        asString ((j.getField "description").getD .null) with
  | some c, some s, some d => some ⟨c, s, d⟩
  | _, _, _ => none

/-- `Citation(**c)`: the confidence field carries `ge=0, le=1` bounds. -/
def asCitation (j : Json) : Option Citation :=
  match asString ((j.getField "source").getD .null),
        asString ((j.getField "excerpt").getD .null),
        asNum ((j.getField "confidence").getD .null) with
  | some s, some e, some q =>
    if 0 ≤ q ∧ q ≤ 1 then some ⟨s, e, q⟩ else none
  | _, _, _ => none

/-- `stage3_synthesize_decision`, given the `query_model_json` result for the
chairman call, the measured processing time, and the fresh uuid.  Errors
model the exceptions a branch can raise (pydantic validation errors are
ValueErrors; `agent_responses[0]` on an empty list is an IndexError). -/
def stage3_synthesize_decision (question : String)
    (agent_responses : List AgentResponse)
    (judge_evaluations : List JudgeEvaluation) (synthesis_data : Json)
    (processing_time : ℚ) (audit_id : String) (now : Nat) :
    Except PyError DecisionObject :=
  if jsonTruthy (synthesis_data.getField "fallback") then
    -- fallback path
    match agent_responses with
    | [] => .error (.indexError "list index out of range")
    | r0 :: _ =>
      .ok { question := question,
            final_answer :=
              "Based on the responses: " ++ r0.response.take 200 ++ "...",
            confidence := pyFloat 1 2,  -- 0.5, "Low confidence for fallback"
            agent_responses := agent_responses,
            judge_evaluations := judge_evaluations,
            risks := [⟨"api_error", "medium",
                       "Chairman synthesis failed, using fallback"⟩],
            citations := [],
            timestamp := now,
            audit_id := audit_id,
            processing_time_seconds := processing_time }
  else
    -- normal path
    match asString ((synthesis_data.getField "final_answer").getD
            (.str "No answer generated")),
          asNum ((synthesis_data.getField "confidence").getD (.num (pyFloat 1 2))),
          ((asJsonArr ((synthesis_data.getField "risks").getD (.arr []))).bind
            (fun l => l.mapM asRisk)),
          ((asJsonArr ((synthesis_data.getField "citations").getD
            (.arr []))).bind (fun l => l.mapM asCitation)) with
    | some fa, some conf, some risks, some citations =>
      if 0 ≤ conf ∧ conf ≤ 1 then
        .ok { question := question, final_answer := fa, confidence := conf,
              agent_responses := agent_responses,
              judge_evaluations := judge_evaluations,
              risks := risks, citations := citations, timestamp := now,
              audit_id := audit_id,
              processing_time_seconds := processing_time }
      else .error (.valueError "ValidationError: confidence out of range")
    | _, _, _, _ => .error (.valueError "ValidationError")

/-! ## The deliberate endpoint (backend/main.py) -/

structure CouncilResponse where
  status : String
  decision : Option DecisionObject
  /-- The safety_warnings key added into the decision dict when the run is
  approved with a nonempty warnings list. -/
  safety_warnings : Option (List Warning)
  audit_id : String
  reason : Option String
  processing_time_seconds : Option ℚ
deriving Repr, DecidableEq

inductive ApiOutcome where
  | response (r : CouncilResponse)
  | httpError (statusCode : Nat) (detail : String)
deriving Repr, DecidableEq

/-- The endpoint's exception handlers: a ValueError becomes HTTP 400 with the
exception text, anything else falls to the blanket handler and becomes
HTTP 500 "Internal server error: ...". -/
def handleError : PyError → ApiOutcome
  | .valueError msg => .httpError 400 msg
  | e => .httpError 500 ("Internal server error: " ++ pyErrStr e)

/-- External inputs of one pipeline run: the network replies, the fresh uuid
and the clock readings. -/
structure PipelineEnv where
  genReply : String → List (String × String) → Option (Option String)
  judgeReply : String → Option Json
  chairmanReply : Option Json
  uuid : String
  now : Nat
  elapsed : ℚ
  totalElapsed : ℚ

def seqExcept : List (Except PyError Json) → Except PyError (List Json)
  | [] => .ok []
  | .error e :: _ => .error e
  | .ok j :: rest =>
    match seqExcept rest with
    | .ok js => .ok (j :: js)
    | .error e => .error e

def VALIDATION_DETAIL : String :=
  "Question must be at least 10 characters long"

/-- Python `str.strip()`: drop leading and trailing whitespace. -/
def pyStrip (s : String) : String :=
  String.mk
    (((s.data.dropWhile Char.isWhitespace).reverse.dropWhile
      Char.isWhitespace).reverse)

/-- Stages 1-3 and the safety gate, as sequenced inside the endpoint's try
block.  An exception in any judge task propagates out of `asyncio.gather`.
The stage-1 result is written out twice instead of let-bound; the function
is pure so the value is the same. -/
def run_stages (env : PipelineEnv) (question : String) :
    Except PyError (DecisionObject × SafetyResult) :=
  match seqExcept (JUDGE_MODELS.map (fun m => query_model_json (env.judgeReply m))) with
  | .error e => .error e
  | .ok judge_outputs =>
    match query_model_json env.chairmanReply with
    | .error e => .error e
    | .ok synthesis_data =>
      match stage3_synthesize_decision question
          (stage1_generate_answers question env.genReply env.now)
          (stage2_judge_evaluation
            (stage1_generate_answers question env.genReply env.now)
            judge_outputs)
          synthesis_data env.elapsed env.uuid env.now with
      | .error e => .error e
      | .ok decision =>
        match safety_check decision with
        | none => .error (.indexError "list index out of range")
        | some safety_result => .ok (decision, safety_result)

/-- The CouncilResponse the endpoint returns after the audit write: rejected
on a failed safety gate (with the violation-count reason), approved
otherwise (with the decision payload and any safety warnings). -/
def councilResponseOf (decision : DecisionObject)
    (safety_result : SafetyResult) (totalElapsed : ℚ) : CouncilResponse :=
  if safety_result.passed then
    { status := "approved", decision := some decision,
      safety_warnings :=
        if safety_result.warnings.isEmpty then none
        else some safety_result.warnings,
      audit_id := decision.audit_id, reason := none,
      processing_time_seconds := some totalElapsed }
  else
    { status := "rejected", decision := none, safety_warnings := none,
      audit_id := decision.audit_id,
      reason := some ("Safety gate failed: " ++
        toString safety_result.violations.length ++ " violation(s) detected"),
      processing_time_seconds := some totalElapsed }

/-- The `/api/council/deliberate` endpoint.  NOTE: the validation raise of
HTTPException(400) sits inside the endpoint's own try block; HTTPException is
not a ValueError, so the blanket `except Exception` catches it and re-raises
HTTPException(500, "Internal server error: " + str(e)).  The audit write
happens before the safety branch, so approval and rejection both log. -/
def deliberate (env : PipelineEnv) (db : List AuditRecord)
    (question : String) : ApiOutcome × List AuditRecord :=
  if question = "" ∨ (pyStrip question).length < 10 then
    (.httpError 500 ("Internal server error: 400: " ++ VALIDATION_DETAIL), db)
  else
    match run_stages env question with
    | .error e => (handleError e, db)
    | .ok (decision, safety_result) =>
      match log_decision db decision safety_result with
      | .error e => (handleError e, db)
      | .ok (db2, _) =>
        (.response (councilResponseOf decision safety_result env.totalElapsed),
         db2)

/-! ## Example inputs used by the verified properties -/

/-- A valid example question (13 characters stripped length is above the
minimum). -/
def exampleQuestion : String :=
  "What are the benefits of regular exercise?"

/-- A generation oracle in which every call succeeds with a text reply. -/
def exOracle : String → List (String × String) → Option (Option String) :=
  fun _ _ => some (some "a reply")

/-- Agent responses of a run in which every generator call succeeded with a
text reply. -/
def agentsEx : List AgentResponse :=
  stage1_generate_answers exampleQuestion exOracle 0

/-- The object `query_model_json` hands back when the underlying call failed:
the fallback-tagged placeholder. -/
def apiFallbackObject : Json :=
  match query_model_json none with
  | .ok j => j
  | .error _ => .null

/-- A judge evaluation whose rankings list is empty. -/
def exEmptyRankEval (i : Nat) : JudgeEvaluation :=
  ⟨"judge_" ++ toString i, "judge-model", [], [], "a rationale"⟩

/-- A decision whose two judge evaluations carry empty rankings lists. -/
def exDecisionEmptyRankings : DecisionObject :=
  ⟨"a question long enough?", "an answer", pyFloat 9 10, [],
   [exEmptyRankEval 0, exEmptyRankEval 1], [], [], 0, "audit-id-a", 1⟩

/-- A decision with no violations and a below-threshold confidence: the gate
emits a warning but no violation. -/
def exDecisionWarnOnly : DecisionObject :=
  ⟨"a question long enough?", "a harmless answer", pyFloat 3 10, [], [],
   [], [], 0, "audit-id-b", 1⟩

/-- The safety result the gate produces for `exDecisionWarnOnly`. -/
def exWarnOnlyResult : SafetyResult :=
  ⟨true, [],
   [Warning.lowConfidence (pyFloat 3 10) MIN_CONFIDENCE
     "Confidence below threshold"], pyFloat 3 10⟩

/-- The judge evaluations of a run whose two judge calls both failed (both
structured replies are the fallback-tagged object). -/
def exEvals : List JudgeEvaluation :=
  stage2_judge_evaluation agentsEx [apiFallbackObject, apiFallbackObject]

/-- The head and tail of `agentsEx` (the response fields hold model
identifiers: that is what the source stores, see C3). -/
def exAgent0 : AgentResponse :=
  ⟨"agent_0", "meta-llama/llama-3.2-3b-instruct:free",
   "meta-llama/llama-3.2-3b-instruct:free", 0⟩

def exAgentsTail : List AgentResponse :=
  [⟨"agent_1", "google/gemini-2.0-flash-exp:free",
    "google/gemini-2.0-flash-exp:free", 0⟩,
   ⟨"agent_2", "mistralai/mistral-7b-instruct:free",
    "mistralai/mistral-7b-instruct:free", 0⟩]

/-- Two judge replies that are dicts without a usable rankings key. -/
def exNoRankingsOutputs : List Json :=
  [Json.str "not a dict", Json.null]

/-- The evaluation the judge loop builds for the first of
`exNoRankingsOutputs`. -/
def exDefaultEval : JudgeEvaluation :=
  stage2_processJudge 3 0 "meta-llama/llama-3.2-3b-instruct:free"
    (Json.str "not a dict")

/-- A structured judge reply whose rankings list names an identity that is
not an agent of the run. -/
def bananaReply : Json :=
  match query_model_json (some (.str "\x7b\"rankings\": [\"banana\"]\x7d")) with
  | .ok j => j
  | .error _ => .null

/-- A decision whose two judges disagree on the top-ranked agent. -/
def exDecisionDisagree : DecisionObject :=
  ⟨"a question long enough?", "a harmless answer", pyFloat 9 10, [],
   [⟨"judge_0", "judge-model", ["agent_1", "agent_0"], [], "r0"⟩,
    ⟨"judge_1", "judge-model", ["agent_0", "agent_1"], [], "r1"⟩],
   [], [], 0, "audit-id-c", 1⟩

/-! ## Verified properties -/

/-- C10: When the audit store holds zero records, `get_statistics` returns
the zeroed aggregate (total count 0, pass rate 0.0, mean confidence 0.0,
mean processing time 0.0) instead of raising or dividing by zero. -/
theorem get_statistics_empty_store :
    get_statistics [] =
      Json.obj [("total_decisions", .num 0), ("avg_confidence", .num 0),
                ("pass_rate", .num 0), ("avg_processing_time", .num 0)] :=
  rfl

/-- C2: Whenever `safety_check` returns a SafetyResult, its `passed` flag is
true exactly when its violations list is empty; warnings play no part in the
flag (it is computed from the violations list alone). -/
theorem safety_passed_iff_no_violations (d : DecisionObject)
    (r : SafetyResult) (h : safety_check d = some r) :
    r.passed = true ↔ r.violations = [] := by
  unfold safety_check at h
  cases hc : check4 d.judge_evaluations with
  | none => rw [hc] at h; exact Option.noConfusion h
  | some w2 =>
    rw [hc] at h
    injection h with h
    subst h
    exact List.isEmpty_iff

/-- Witness for C2 at a concrete decision carrying a warning but no
violation: the gate returns a result and the equivalence holds for it (its
`passed` flag is true although a warning was appended). -/
theorem safety_passed_iff_no_violations_witness :
    safety_check exDecisionWarnOnly = some exWarnOnlyResult ∧
      (exWarnOnlyResult.passed = true ↔ exWarnOnlyResult.violations = []) :=
  ⟨rfl, safety_passed_iff_no_violations exDecisionWarnOnly exWarnOnlyResult rfl⟩

/-- check4 only fails when there are at least two judge evaluations and one
of the first two carries an empty rankings list. -/
lemma check4_none (evals : List JudgeEvaluation) (hc : check4 evals = none) :
    ∃ e0 e1 rest, evals = e0 :: e1 :: rest ∧
      (e0.rankings = [] ∨ e1.rankings = []) := by
  rcases evals with _ | ⟨e0, _ | ⟨e1, rest⟩⟩
  · simp [check4] at hc
  · simp [check4] at hc
  · rcases hr0 : e0.rankings with _ | ⟨r0, tl0⟩
    · exact ⟨e0, e1, rest, rfl, Or.inl hr0⟩
    · rcases hr1 : e1.rankings with _ | ⟨r1, tl1⟩
      · exact ⟨e0, e1, rest, rfl, Or.inr hr1⟩
      · simp [check4, hr0, hr1] at hc

/-- C9 counterexample: `safety_check` is not total.  On a decision whose two
judge evaluations both carry empty rankings lists, check 4 evaluates
`rankings[0]` and raises an IndexError (modelled by `none`), so no
SafetyResult is returned. -/
theorem safety_check_raises_on_empty_rankings :
    safety_check exDecisionEmptyRankings = none :=
  rfl

/-- C9 (amended): `safety_check` returns a SafetyResult for every decision
with fewer than two judge evaluations, or whose first two judge evaluations
both have nonempty rankings; the empty-rankings case of the original claim
is exactly the one that raises. -/
theorem safety_check_total_unless_empty_rankings (d : DecisionObject)
    (h : ∀ e0 e1 rest, d.judge_evaluations = e0 :: e1 :: rest →
      e0.rankings ≠ [] ∧ e1.rankings ≠ []) :
    (safety_check d).isSome = true := by
  cases hc : check4 d.judge_evaluations with
  | some w2 =>
    unfold safety_check
    rw [hc]
    rfl
  | none =>
    obtain ⟨e0, e1, rest, hev, hor⟩ := check4_none d.judge_evaluations hc
    obtain ⟨h0, h1⟩ := h e0 e1 rest hev
    rcases hor with hx | hx
    · exact absurd hx h0
    · exact absurd hx h1

/-- Witness for C9's amended theorem: the gate returns a result for a
decision whose two judges disagree (nonempty rankings). -/
theorem safety_check_total_unless_empty_rankings_witness :
    (safety_check exDecisionDisagree).isSome = true :=
  safety_check_total_unless_empty_rankings exDecisionDisagree
    (by
      intro e0 e1 rest h
      injection h with h0 h
      injection h with h1 h
      subst h0; subst h1
      exact ⟨by decide, by decide⟩)

/-- C3: For every oracle (so for every combination of reply texts and
failures) the `response` field of each AgentResponse built by
`stage1_generate_answers` holds the MODEL IDENTIFIER, because the stage zips
the model list with the keys of the response dict; the reply text is
discarded and no response ever carries an "unavailable" marker. -/
theorem stage1_response_fields_are_model_ids (question : String)
    (oracle : String → List (String × String) → Option (Option String))
    (now : Nat) :
    (stage1_generate_answers question oracle now).map AgentResponse.response =
      GENERATOR_MODELS ∧
    (stage1_generate_answers question oracle now).all
      (fun r => !containsSubstr "unavailable" r.response) = true :=
  ⟨rfl, rfl⟩

/-- C4: evaluating `query_model_json` at a content string that is not JSON
and contains six consecutive backticks: the code-block step's regex (six
literal backticks, no capture group) matches, `group(1)` raises IndexError,
and the exception escapes to the caller instead of the promised fallback
dict. -/
theorem query_model_json_raises_on_six_backticks :
    parseJson "``````" = none ∧
    query_model_json (some (.str "``````")) =
      .error (.indexError "no such group") :=
  ⟨rfl, rfl⟩

/-- C5 counterexample: the fallback-tagged object carries a `rankings` key,
so the judge loop consumes it on the normal path and keeps its EMPTY scores
dict — no deterministic neutral default is substituted. -/
theorem stage2_fallback_tagged_keeps_empty_scores :
    jsonTruthy (apiFallbackObject.getField "fallback") = true ∧
    (stage2_judge_evaluation agentsEx [apiFallbackObject, apiFallbackObject]).map
      JudgeEvaluation.scores = [[], []] :=
  ⟨rfl, rfl⟩

/-- C5 (amended): the deterministic default (rankings in original agent
order, neutral mid-scale score 5 for every criterion and every agent, scores
never empty) is substituted exactly when the structured reply LACKS a
rankings field; a fallback-tagged reply carrying one is consumed as-is. -/
theorem stage2_missing_rankings_default (nAgents i : Nat) (model : String)
    (output : Json) (h : output.hasKey "rankings" = false)
    (hn : 0 < nAgents) :
    (stage2_processJudge nAgents i model output).rankings =
      defaultRankings nAgents ∧
    (stage2_processJudge nAgents i model output).scores =
      (List.range nAgents).map
        (fun j => ("agent_" ++ toString j, NEUTRAL_SCORES)) ∧
    (stage2_processJudge nAgents i model output).scores ≠ [] := by
  unfold stage2_processJudge
  rw [h]
  have h3 : (List.range nAgents).map
      (fun j => ("agent_" ++ toString j, NEUTRAL_SCORES)) ≠ [] := by
    intro hc
    have hlen := congrArg List.length hc
    simp at hlen
    omega
  exact ⟨rfl, rfl, h3⟩

/-- Witness for C5's amended theorem at a reply that is not a dict. -/
theorem stage2_missing_rankings_default_witness :
    (Json.str "not a dict").hasKey "rankings" = false ∧
    (0 < 3) ∧
    ((stage2_processJudge 3 0 "meta-llama/llama-3.2-3b-instruct:free"
        (Json.str "not a dict")).rankings = defaultRankings 3 ∧
      (stage2_processJudge 3 0 "meta-llama/llama-3.2-3b-instruct:free"
        (Json.str "not a dict")).scores =
        (List.range 3).map
          (fun j => ("agent_" ++ toString j, NEUTRAL_SCORES)) ∧
      (stage2_processJudge 3 0 "meta-llama/llama-3.2-3b-instruct:free"
        (Json.str "not a dict")).scores ≠ []) :=
  ⟨rfl, by decide,
   stage2_missing_rankings_default 3 0 "meta-llama/llama-3.2-3b-instruct:free"
     (Json.str "not a dict") rfl (by decide)⟩

/-- C6 counterexample: a judge reply parsed by `query_model_json` whose
rankings list is `["banana"]` is stored verbatim, so the produced
JudgeEvaluation's rankings are not a permutation of the agent identities of
the run. -/
theorem stage2_rankings_not_permutation_of_agent_ids :
    ((stage2_judge_evaluation agentsEx [bananaReply, bananaReply]).map
      JudgeEvaluation.rankings = [["banana"], ["banana"]]) ∧
    ¬ List.Perm ["banana"] (agentsEx.map AgentResponse.agent_id) :=
  ⟨rfl, fun hp => absurd hp.length_eq (by decide)⟩

/-- Every evaluation built by the judge loop from replies without a rankings
key carries the default rankings. -/
lemma stage2_loop_rankings_default (n : Nat) (l : List (String × Json))
    (h : ∀ p ∈ l, Json.hasKey p.2 "rankings" = false) :
    ∀ i e, e ∈ stage2_loop n i l → e.rankings = defaultRankings n := by
  induction l with
  | nil => intro i e he; simp [stage2_loop] at he
  | cons hd tl ih =>
    intro i e he
    obtain ⟨model, output⟩ := hd
    simp only [stage2_loop, List.mem_cons] at he
    rcases he with he | he
    · subst he
      unfold stage2_processJudge
      rw [h (model, output) (List.mem_cons_self _ _)]
      simp
    · exact ih (fun p hp => h p (List.mem_cons_of_mem _ hp)) (i + 1) e he

/-- C6 (amended): the rankings of a JudgeEvaluation are a permutation of the
agent identities produced by GenerationStage whenever the default
substitution fired (reply without a rankings field); a reply that carries a
rankings field is stored verbatim and is not validated against the agent
identities. -/
theorem stage2_default_rankings_are_agent_ids (question : String)
    (oracle : String → List (String × String) → Option (Option String))
    (now : Nat) (outputs : List Json)
    (h : ∀ o ∈ outputs, Json.hasKey o "rankings" = false)
    (e : JudgeEvaluation)
    (he : e ∈ stage2_judge_evaluation
      (stage1_generate_answers question oracle now) outputs) :
    List.Perm e.rankings
      ((stage1_generate_answers question oracle now).map
        AgentResponse.agent_id) := by
  unfold stage2_judge_evaluation at he
  have hz : ∀ p ∈ JUDGE_MODELS.zip outputs,
      Json.hasKey p.2 "rankings" = false := by
    intro p hp
    exact h p.2 (List.of_mem_zip hp).2
  have hr := stage2_loop_rankings_default
    (stage1_generate_answers question oracle now).length
    (JUDGE_MODELS.zip outputs) hz 0 e he
  rw [hr]
  have hlen : (stage1_generate_answers question oracle now).length = 3 := rfl
  have hid : (stage1_generate_answers question oracle now).map
      AgentResponse.agent_id = defaultRankings 3 := rfl
  rw [hlen, hid]

/-- Witness for C6's amended theorem: a run with two unusable judge replies;
the first produced evaluation's rankings are a permutation of the run's
agent identities. -/
theorem stage2_default_rankings_are_agent_ids_witness :
    List.Perm exDefaultEval.rankings
      ((stage1_generate_answers exampleQuestion exOracle 0).map
        AgentResponse.agent_id) :=
  stage2_default_rankings_are_agent_ids exampleQuestion exOracle 0
    exNoRankingsOutputs
    (by
      intro o ho
      rcases List.mem_cons.mp ho with rfl | ho2
      · rfl
      · rcases List.mem_cons.mp ho2 with rfl | h3
        · rfl
        · cases h3)
    exDefaultEval (List.mem_cons_self _ _)

/-- C7 counterexample: the fallback-path confidence is NOT distinct from the
normal-path default — both are 0.5 (the source hardcodes `confidence=0.5` in
the fallback branch and `synthesis_data.get("confidence", 0.5)` in the
normal branch). -/
theorem stage3_fallback_confidence_equals_normal_default :
    ((stage3_synthesize_decision exampleQuestion agentsEx exEvals
        apiFallbackObject (pyFloat 1 1) "audit-id-d" 0).toOption.map
      DecisionObject.confidence = some (pyFloat 1 2)) ∧
    ((stage3_synthesize_decision exampleQuestion agentsEx exEvals
        (Json.obj []) (pyFloat 1 1) "audit-id-e" 0).toOption.map
      DecisionObject.confidence = some (pyFloat 1 2)) :=
  ⟨rfl, rfl⟩

/-- C7 (amended): on a fallback-tagged synthesizer reply the decision has
confidence fixed at 0.5 (equal to, not distinct from, the normal-path
default), exactly one Risk with category api_error and medium severity, an
empty citations list, and a final answer that is a bounded-length excerpt
(200 characters) of the first generator's stored response. -/
theorem stage3_fallback_path (question : String) (rs : List AgentResponse)
    (es : List JudgeEvaluation) (sd : Json) (t : ℚ) (aid : String)
    (now : Nat) (r0 : AgentResponse) (rest : List AgentResponse)
    (hrs : rs = r0 :: rest)
    (hfb : jsonTruthy (sd.getField "fallback") = true) :
    stage3_synthesize_decision question rs es sd t aid now =
      .ok { question := question,
            final_answer :=
              "Based on the responses: " ++ r0.response.take 200 ++ "...",
            confidence := pyFloat 1 2,
            agent_responses := rs,
            judge_evaluations := es,
            risks := [⟨"api_error", "medium",
                       "Chairman synthesis failed, using fallback"⟩],
            citations := [],
            timestamp := now,
            audit_id := aid,
            processing_time_seconds := t } := by
  subst hrs
  unfold stage3_synthesize_decision
  rw [hfb]
  rfl

/-- Witness for C7's amended theorem at the concrete fallback run. -/
theorem stage3_fallback_path_witness :
    agentsEx = exAgent0 :: exAgentsTail ∧
    jsonTruthy (apiFallbackObject.getField "fallback") = true ∧
    stage3_synthesize_decision exampleQuestion agentsEx exEvals
        apiFallbackObject (pyFloat 1 1) "audit-id-f" 0 =
      .ok { question := exampleQuestion,
            final_answer :=
              "Based on the responses: " ++ exAgent0.response.take 200 ++ "...",
            confidence := pyFloat 1 2,
            agent_responses := agentsEx,
            judge_evaluations := exEvals,
            risks := [⟨"api_error", "medium",
                       "Chairman synthesis failed, using fallback"⟩],
            citations := [],
            timestamp := 0,
            audit_id := "audit-id-f",
            processing_time_seconds := pyFloat 1 1 } :=
  ⟨rfl, rfl,
   stage3_fallback_path exampleQuestion agentsEx exEvals apiFallbackObject
     (pyFloat 1 1) "audit-id-f" 0 exAgent0 exAgentsTail rfl rfl⟩

/-- C8: a question shorter than 10 stripped characters is rejected before
any stage runs (the outcome does not depend on the environment and the store
is untouched), but it surfaces as HTTP 500 "Internal server error", not as
the distinct 400 validation rejection: the endpoint's blanket
`except Exception` catches its own HTTPException(400) and re-raises it as an
internal error. -/
theorem deliberate_short_question_internal_error (env : PipelineEnv)
    (db : List AuditRecord) :
    deliberate env db "short" =
      (.httpError 500 ("Internal server error: 400: " ++ VALIDATION_DETAIL),
       db) :=
  rfl

/-- The exception handlers never fabricate a CouncilResponse. -/
lemma handleError_ne_response (e : PyError) (r : CouncilResponse) :
    handleError e ≠ .response r := by
  cases e <;> exact fun hh => ApiOutcome.noConfusion hh

/-- Both response shapes carry the decision's audit id. -/
lemma councilResponseOf_audit_id (d : DecisionObject) (sr : SafetyResult)
    (t : ℚ) : (councilResponseOf d sr t).audit_id = d.audit_id := by
  unfold councilResponseOf
  split <;> rfl

/-- Appending one matching record to a store with no match leaves exactly
one match. -/
lemma append_filter_count {α : Type} (p : α → Bool) (db : List α)
    (h : db.any p = false) (rec : α) (hrec : p rec = true) :
    ((db ++ [rec]).filter p).length = 1 := by
  have h1 : db.filter p = [] :=
    List.filter_eq_nil_iff.mpr (List.any_eq_false.mp h)
  rw [List.filter_append, h1]
  simp [hrec]

/-- The decision a successful stage 3 returns is keyed by the audit id it
was given. -/
lemma stage3_audit_id (question : String) (rs : List AgentResponse)
    (es : List JudgeEvaluation) (sd : Json) (t : ℚ) (aid : String)
    (now : Nat) (d : DecisionObject)
    (h : stage3_synthesize_decision question rs es sd t aid now = .ok d) :
    d.audit_id = aid := by
  unfold stage3_synthesize_decision at h
  split at h
  · split at h
    · exact Except.noConfusion h
    · injection h with h
      subst h
      rfl
  · split at h
    · split at h
      · injection h with h
        subst h
        rfl
      · exact Except.noConfusion h
    · exact Except.noConfusion h

/-- A decision produced by the stage pipeline is keyed by the run's fresh
uuid. -/
lemma run_stages_audit_id (env : PipelineEnv) (question : String)
    (d : DecisionObject) (sr : SafetyResult)
    (h : run_stages env question = .ok (d, sr)) : d.audit_id = env.uuid := by
  unfold run_stages at h
  split at h
  · exact Except.noConfusion h
  · split at h
    · exact Except.noConfusion h
    · split at h
      · exact Except.noConfusion h
      · rename_i decision hs3
        split at h
        · exact Except.noConfusion h
        · injection h with h
          injection h with h1 h2
          subst h1
          exact stage3_audit_id _ _ _ _ _ _ _ _ hs3

/-- C1: every pipeline run that reaches an approved or rejected outcome
appends exactly one AuditRecord, keyed by the run's fresh audit identifier;
the write happens before the safety branch, so rejection does not suppress
it. -/
theorem deliberate_audit_exactly_once (env : PipelineEnv)
    (db : List AuditRecord) (question : String) (r : CouncilResponse)
    (h : (deliberate env db question).1 = .response r) :
    ∃ rec, (deliberate env db question).2 = db ++ [rec] ∧
      rec.audit_id = r.audit_id ∧ rec.audit_id = env.uuid ∧
      ((deliberate env db question).2.filter
        (fun x => x.audit_id == r.audit_id)).length = 1 := by
  unfold deliberate at h
  split at h
  · exact absurd h (fun hh => ApiOutcome.noConfusion hh)
  · rename_i hv
    split at h
    · rename_i e hrs
      exact absurd h (handleError_ne_response e r)
    · rename_i decision sr hrs
      split at h
      · rename_i e hld
        exact absurd h (handleError_ne_response e r)
      · rename_i db2 aid hld
        injection h with h
        subst h
        have hdel : deliberate env db question =
            (.response (councilResponseOf decision sr env.totalElapsed),
             db2) := by
          unfold deliberate
          rw [if_neg hv]
          simp only [hrs, hld]
        rw [hdel]
        unfold log_decision at hld
        split at hld
        · exact Except.noConfusion hld
        · rename_i hany
          injection hld with hld
          injection hld with h1 h2
          subst h1
          refine ⟨auditRecordOf decision sr, rfl, ?_, ?_, ?_⟩
          · rw [councilResponseOf_audit_id]
            rfl
          · exact run_stages_audit_id env question decision sr hrs
          · rw [councilResponseOf_audit_id]
            refine append_filter_count _ db ?_ _ ?_
            · simpa using hany
            · simp [auditRecordOf]

/-- The environment of a concrete run whose three generator calls fail and
whose judge and chairman calls return no reply: the stages degrade to their
fallbacks and the run completes approved. -/
def envEx : PipelineEnv :=
  { genReply := fun _ _ => none,
    judgeReply := fun _ => none,
    chairmanReply := none,
    uuid := "audit-uuid-1", now := 7,
    elapsed := pyFloat 321 100, totalElapsed := pyFloat 4 1 }

/-- The CouncilResponse of that concrete run. -/
def exampleResponse : CouncilResponse :=
  match (deliberate envEx [] exampleQuestion).1 with
  | .response r => r
  | .httpError _ _ => ⟨"", none, none, "", none, none⟩

/-- Witness for C1: the concrete run completes with a response and its audit
write appends exactly one record keyed by the run's uuid. -/
theorem deliberate_audit_exactly_once_witness :
    (deliberate envEx [] exampleQuestion).1 = .response exampleResponse ∧
    (∃ rec, (deliberate envEx [] exampleQuestion).2 = [] ++ [rec] ∧
      rec.audit_id = exampleResponse.audit_id ∧
      rec.audit_id = envEx.uuid ∧
      ((deliberate envEx [] exampleQuestion).2.filter
        (fun x => x.audit_id == exampleResponse.audit_id)).length = 1) :=
  ⟨rfl, deliberate_audit_exactly_once envEx [] exampleQuestion
    exampleResponse rfl⟩

end LlmCouncil
